/-
Verification of the GuestVM debug-channel control core
(Native/tele/guestvm/guestvmDBChannel.c) against its design document.

The C file is shallowly embedded below: pure helpers become Lean
functions; the global coordinator state (terminated flag, cached
threads-at-rest snapshot, suspend-all request flag) becomes an explicit
CoordState record threaded through the operations; calls into the
opaque target-control library (db_gather_threads, db_signoff,
db_resume_all, db_suspend_all, db_get_regs, db_activate_watchpoint,
db_watchpoint_info) are modelled as input oracles, and the calls
actually issued are recorded in an event trace so that "never invokes
the collaborator" style properties can be stated.
-/
import Mathlib

set_option linter.unusedVariables false

/-! ### Thread state flags

Modelled from the spec: the numeric values of the thread-state flag
bits come from a target-control header that is not part of this source
tree; the spec only requires them to be independently settable bits, so
they are modelled as distinct powers of two, in the order the source's
trace_thread decomposition lists them. -/

def RUNNABLE_FLAG : Nat := 1

def RUNNING_FLAG : Nat := 2

def DYING_FLAG : Nat := 4

def REQ_DEBUG_SUSPEND_FLAG : Nat := 8

def DEBUG_SUSPEND_FLAG : Nat := 16

def AUX1_FLAG : Nat := 32

def AUX2_FLAG : Nat := 64

def JOIN_FLAG : Nat := 128

def SLEEP_FLAG : Nat := 256

def WATCH_FLAG : Nat := 512

/-! ### Watchpoint trigger-kind bits

Modelled from the spec: the watchpoint kind bits (after/read/write/exec)
also come from the external target-control header; modelled as distinct
bits. -/

def AFTER_W : Nat := 1

def READ_W : Nat := 2

def WRITE_W : Nat := 4

def EXEC_W : Nat := 8

/-- The 32-bit one's complement of AFTER_W, i.e. the int value of the C
expression NOT AFTER_W used by nativeReadWatchpointAccessCode. -/
def AFTER_W_complement : Nat := 2 ^ 32 - 1 - AFTER_W

/-- ThreadState_t, the classified thread state enumeration. -/
inductive ThreadState_t where
  | TS_MONITOR_WAIT
  | TS_NOTIFY_WAIT
  | TS_JOIN_WAIT
  | TS_SLEEPING
  | TS_WATCHPOINT
  | TS_SUSPENDED
deriving DecidableEq, Repr

/-- toThreadState (guestvmDBChannel.c lines 147-165): classifies a raw
flag bitmask by testing the wait flags in the source's fixed order,
defaulting to TS_SUSPENDED. -/
def toThreadState (state : Nat) : ThreadState_t :=
  if state &&& AUX1_FLAG ≠ 0 then ThreadState_t.TS_MONITOR_WAIT
  else if state &&& AUX2_FLAG ≠ 0 then ThreadState_t.TS_NOTIFY_WAIT
  else if state &&& JOIN_FLAG ≠ 0 then ThreadState_t.TS_JOIN_WAIT
  else if state &&& SLEEP_FLAG ≠ 0 then ThreadState_t.TS_SLEEPING
  else if state &&& WATCH_FLAG ≠ 0 then ThreadState_t.TS_WATCHPOINT
  else ThreadState_t.TS_SUSPENDED

/-- struct db_thread: one target thread as observed by the collector. -/
structure db_thread where
  id : Int
  flags : Nat
deriving DecidableEq, Repr

/-- struct db_regs: the raw register block returned by db_get_regs; only
the two fields the channel reads (rsp, rip) are modelled. -/
structure db_regs where
  rsp : Int
  rip : Int
deriving DecidableEq, Repr

/-- is_state (line 187): test a flag bit of a raw state mask. -/
def is_state (state : Nat) (flag : Nat) : Bool :=
  state &&& flag != 0

/-- is_th_state (line 191): test a flag bit of a thread's flags. -/
def is_th_state (thread : db_thread) (flag : Nat) : Bool :=
  is_state thread.flags flag

/-! ### Coordinator state and collaborator-call events -/

/-- The file-static coordinator state of guestvmDBChannel.c: the
terminated flag, the cached threads-at-rest snapshot (none models the
NULL / discarded pointer), and the volatile suspend_all_request flag. -/
structure CoordState where
  terminated : Bool
  threads_at_rest : Option (List db_thread)
  suspend_all_request : Bool
deriving DecidableEq, Repr

/-- Calls issued to the opaque target-control collaborator, recorded as
an event trace. -/
inductive Ev where
  | resumeAll
  | gather
  | signoff
  | suspendAll
deriving DecidableEq, Repr

/-- AgentDBProtocol.teleThreadLocalsInitialize (lines 47-54): a new
connection re-initializes the static coordinator state. -/
def teleThreadLocalsInitialize : CoordState :=
  { terminated := false, threads_at_rest := none, suspend_all_request := false }

/-- nativeSuspendAll (lines 81-85): sets the suspend_all_request flag
and returns true. -/
def nativeSuspendAll (s : CoordState) : CoordState × Bool :=
  ({ s with suspend_all_request := true }, true)

/-- gather_and_trace_threads (lines 211-218): the diagnostic dump; it
returns immediately when terminated is set, otherwise performs one
collection (and traces it). The returned list is the collaborator-call
trace. -/
def gather_and_trace_threads (s : CoordState) : List Ev :=
  if s.terminated then [] else [Ev.gather]

/-! ### The resume polling loop

One iteration of the while loop at lines 231-255 first reads the
volatile suspend_all_request flag, then (if it is clear) performs one
collection.  A Round supplies the external input of one iteration: ext
is true when a concurrent nativeSuspendAll landed since the previous
check, and gathered is what db_gather_threads returns (none models the
NULL return signalling target termination). -/

structure Round where
  ext : Bool
  gathered : Option (List db_thread)
deriving DecidableEq, Repr

/-- How the polling loop ended: the target terminated mid-poll, or the
loop condition observed the suspend-all flag. -/
inductive PollOutcome where
  | term
  | exit
deriving DecidableEq, Repr

/-- The while loop of nativeResume (lines 231-255).  flag is the
current value of suspend_all_request as the loop sees it; the scan for
a DEBUG_SUSPEND_FLAG thread sets it for the next check, exactly as the
C sets the global and re-tests the loop condition.  Returns none when
the supplied schedule runs out while the loop would still be polling. -/
def pollLoop (flag : Bool) : List Round → Option (PollOutcome × List Ev)
  | [] => if flag then some (PollOutcome.exit, []) else none
  | r :: rest =>
    if flag || r.ext then some (PollOutcome.exit, [])
    else
      match r.gathered with
      | none => some (PollOutcome.term, [Ev.gather, Ev.signoff])
      | some threads =>
        match pollLoop (threads.any (fun t => is_th_state t DEBUG_SUSPEND_FLAG)) rest with
        | none => none
        | some (o, evs) => some (o, Ev.gather :: evs)

/-- nativeResume (lines 220-272): discard the cached snapshot, release
all runnable threads (db_resume_all), poll until a thread blocks or a
suspend-all request arrives, then either sign off on termination
(returning 1) or force-suspend the remainder, take and cache a final
snapshot, and return 0.  rounds is the schedule of poll iterations and
finalGather what the post-loop db_gather_threads returns. -/
def nativeResume (s : CoordState) (rounds : List Round)
    (finalGather : Option (List db_thread)) :
    Option (CoordState × Nat × List Ev) :=
  match pollLoop s.suspend_all_request rounds with
  | none => none
  | some (PollOutcome.term, evs) =>
    some ({ terminated := true, threads_at_rest := none,
            suspend_all_request := false }, 1, Ev.resumeAll :: evs)
  | some (PollOutcome.exit, evs) =>
    some ({ terminated := s.terminated, threads_at_rest := finalGather,
            suspend_all_request := false }, 0,
          Ev.resumeAll :: (evs ++ [Ev.suspendAll, Ev.gather]))

/-! ### Register canonicalization -/

/-- Modelled from the spec: the byte sizes of the three canonical
register regions are given by architecture-specific structs in the
external isa.h header; the spec fixes only that they are fixed-size
regions, so representative positive sizes are used. -/
def sizeof_canonicalIntegerRegisters : Nat := 128

def sizeof_canonicalStateRegisters : Nat := 24

def sizeof_canonicalFloatingPointRegisters : Nat := 128

/-- The three caller-supplied output buffers of nativeReadRegisters. -/
inductive RegBuf where
  | integer
  | state
  | fp
deriving DecidableEq, Repr

/-- nativeReadRegisters (lines 105-144): rejects any buffer length
LARGER than its canonical struct (each check before any write), then
resolves the raw register block, failing if it is NULL; on success it
issues one SetByteArrayRegion per buffer, each copying exactly the
declared length, in source order (integer, state, floating-point).
The second component records the writes performed (buffer, byte count). -/
def nativeReadRegisters (integerRegistersLength floatingPointRegistersLength
    stateRegistersLength : Nat) (regs : Option db_regs) :
    Bool × List (RegBuf × Nat) :=
  if integerRegistersLength > sizeof_canonicalIntegerRegisters then (false, [])
  else if stateRegistersLength > sizeof_canonicalStateRegisters then (false, [])
  else if floatingPointRegistersLength > sizeof_canonicalFloatingPointRegisters then (false, [])
  else
    match regs with
    | none => (false, [])
    | some _ =>
      (true, [(RegBuf.integer, integerRegistersLength),
              (RegBuf.state, stateRegistersLength),
              (RegBuf.fp, floatingPointRegistersLength)])

/-! ### Thread gathering for reporting -/

/-- nativeGatherThreads (lines 167-185): for each thread of a fresh
collection, look up the raw register block (checked_get_regs) and then
unconditionally dereference it to read rsp (for thread-locals
resolution) and rip.  A NULL block is dereferenced by the C code; the
model makes that undefined behaviour the none outcome.  getRegs models
db_get_regs and findLocals the thread-locals collaborator applied to
the block's rsp. -/
def nativeGatherThreads (gathered : List db_thread)
    (getRegs : Int → Option db_regs) (findLocals : Int → Int) :
    Option (List (Int × ThreadState_t × Int × Int)) :=
  match gathered with
  | [] => some []
  | t :: rest =>
    match getRegs t.id with
    | none => none
    | some regs =>
      match nativeGatherThreads rest getRegs findLocals with
      | none => none
      | some rs =>
        some ((t.id, toThreadState t.flags, regs.rip, findLocals regs.rsp) :: rs)

/-! ### Watchpoints -/

/-- nativeActivateWatchpoint (lines 299-308): builds the kind mask from
the four booleans, rejects a configuration without the after flag
before calling the collaborator, and otherwise delegates to
db_activate_watchpoint.  The second component records the collaborator
calls (address, size, kind). -/
def nativeActivateWatchpoint (dbActivate : Int → Int → Nat → Bool)
    (address size : Int) (after read write exec : Bool) :
    Bool × List (Int × Int × Nat) :=
  let kind := (if after then AFTER_W else 0) ||| (if read then READ_W else 0)
    ||| (if write then WRITE_W else 0) ||| (if exec then EXEC_W else 0)
  if !after then (false, [])
  else (dbActivate address size kind, [(address, size, kind)])

/-- get_wp_thread (lines 315-323): scan the cached threads_at_rest
snapshot for the first thread with the raw WATCH_FLAG bit; -1 when
there is none. -/
def get_wp_thread : List db_thread → Int
  | [] => -1
  | t :: rest => if is_th_state t WATCH_FLAG then t.id else get_wp_thread rest

/-- nativeReadWatchpointAddress (lines 325-334): 0 without querying the
collaborator when no cached thread is at a watchpoint, otherwise the
address part of db_watchpoint_info.  The second component records the
thread ids queried. -/
def nativeReadWatchpointAddress (threads_at_rest : List db_thread)
    (dbWatchpointInfo : Int → Int × Nat) : Int × List Int :=
  let thread_id := get_wp_thread threads_at_rest
  if thread_id < 0 then (0, [])
  else ((dbWatchpointInfo thread_id).1, [thread_id])

/-- nativeReadWatchpointAccessCode (lines 336-347): 0 without querying
the collaborator when no cached thread is at a watchpoint, otherwise
the kind part of db_watchpoint_info with the AFTER_W bit masked off. -/
def nativeReadWatchpointAccessCode (threads_at_rest : List db_thread)
    (dbWatchpointInfo : Int → Int × Nat) : Nat × List Int :=
  let thread_id := get_wp_thread threads_at_rest
  if thread_id < 0 then (0, [])
  else ((dbWatchpointInfo thread_id).2 &&& AFTER_W_complement, [thread_id])

/-- The thread-at-watchpoint lookup as the design document words it:
the first cached thread whose CLASSIFIED state is Watchpoint (to be
compared with get_wp_thread, which tests the raw flag bit). -/
def thread_at_watchpoint_spec (threads_at_rest : List db_thread) : Option Int :=
  (threads_at_rest.find? (fun t =>
    decide (toThreadState t.flags = ThreadState_t.TS_WATCHPOINT))).map db_thread.id

/-! ### Helper lemmas -/

/-- get_wp_thread returns the -1 sentinel on a snapshot with no thread
carrying the raw watchpoint bit. -/
theorem get_wp_thread_of_no_watch {ts : List db_thread}
    (h : ∀ t ∈ ts, t.flags &&& WATCH_FLAG = 0) : get_wp_thread ts = -1 := by
  induction ts with
  | nil => rfl
  | cons t rest ih =>
    have ht : t.flags &&& WATCH_FLAG = 0 := h t (by simp)
    have : is_th_state t WATCH_FLAG = false := by
      simp [is_th_state, is_state, ht]
    rw [get_wp_thread, this]
    simp only [Bool.false_eq_true, if_false]
    exact ih (fun u hu => h u (by simp [hu]))

/-- Masking with the 32-bit complement of AFTER_W clears the AFTER_W bit. -/
theorem land_AFTER_W_complement_strips (k : Nat) :
    (k &&& AFTER_W_complement) &&& AFTER_W = 0 := by
  rw [Nat.land_assoc]
  norm_num [AFTER_W_complement, AFTER_W]

/-- C2: toThreadState is a pure total function on flag bitmasks and
applies the fixed priority order monitor-wait > notify-wait > join-wait
> sleeping > watchpoint > suspended (default); in particular a mask
with both the sleeping and watchpoint bits set classifies as
TS_SLEEPING. -/
theorem c2_classifier_priority_order :
    (∀ s : Nat, s &&& AUX1_FLAG ≠ 0 → toThreadState s = ThreadState_t.TS_MONITOR_WAIT)
  ∧ (∀ s : Nat, s &&& AUX1_FLAG = 0 → s &&& AUX2_FLAG ≠ 0 →
      toThreadState s = ThreadState_t.TS_NOTIFY_WAIT)
  ∧ (∀ s : Nat, s &&& AUX1_FLAG = 0 → s &&& AUX2_FLAG = 0 → s &&& JOIN_FLAG ≠ 0 →
      toThreadState s = ThreadState_t.TS_JOIN_WAIT)
  ∧ (∀ s : Nat, s &&& AUX1_FLAG = 0 → s &&& AUX2_FLAG = 0 → s &&& JOIN_FLAG = 0 →
      s &&& SLEEP_FLAG ≠ 0 → toThreadState s = ThreadState_t.TS_SLEEPING)
  ∧ (∀ s : Nat, s &&& AUX1_FLAG = 0 → s &&& AUX2_FLAG = 0 → s &&& JOIN_FLAG = 0 →
      s &&& SLEEP_FLAG = 0 → s &&& WATCH_FLAG ≠ 0 →
      toThreadState s = ThreadState_t.TS_WATCHPOINT)
  ∧ (∀ s : Nat, s &&& AUX1_FLAG = 0 → s &&& AUX2_FLAG = 0 → s &&& JOIN_FLAG = 0 →
      s &&& SLEEP_FLAG = 0 → s &&& WATCH_FLAG = 0 →
      toThreadState s = ThreadState_t.TS_SUSPENDED)
  ∧ toThreadState (SLEEP_FLAG ||| WATCH_FLAG) = ThreadState_t.TS_SLEEPING := by
  refine ⟨?_, ?_, ?_, ?_, ?_, ?_, by decide⟩ <;>
    · intro s
      intros
      simp_all [toThreadState]

/-- Witness for C2: a monitor-wait+watchpoint mask classifies as
monitor wait and a sleeping+watchpoint mask as sleeping. -/
theorem c2_classifier_priority_order_witness :
    toThreadState 544 = ThreadState_t.TS_MONITOR_WAIT
  ∧ toThreadState 768 = ThreadState_t.TS_SLEEPING :=
  ⟨c2_classifier_priority_order.1 544 (by decide),
   c2_classifier_priority_order.2.2.2.1 768 (by decide) (by decide) (by decide) (by decide)⟩

/-- C5: nativeActivateWatchpoint rejects any configuration without the
after flag before invoking the target-control collaborator, and passes
configurations with the after flag on to it (with the assembled kind
mask). -/
theorem c5_activate_requires_after_flag :
    (∀ (dbActivate : Int → Int → Nat → Bool) (address size : Int) (r w e : Bool),
      nativeActivateWatchpoint dbActivate address size false r w e = (false, []))
  ∧ (∀ (dbActivate : Int → Int → Nat → Bool) (address size : Int) (r w e : Bool),
      nativeActivateWatchpoint dbActivate address size true r w e =
        (dbActivate address size
          (AFTER_W ||| (if r then READ_W else 0) ||| (if w then WRITE_W else 0)
            ||| (if e then EXEC_W else 0)),
         [(address, size,
           AFTER_W ||| (if r then READ_W else 0) ||| (if w then WRITE_W else 0)
             ||| (if e then EXEC_W else 0))])) := by
  constructor <;>
    · intros
      simp [nativeActivateWatchpoint]

/-- C9: the per-thread enumeration of nativeGatherThreads dereferences
the raw register block with no null check: with a listed thread whose
register lookup fails, execution reaches the dereference of the null
block (the undefined-behaviour outcome of the model). -/
theorem c9_null_register_block_dereferenced :
    nativeGatherThreads [⟨5, RUNNABLE_FLAG⟩] (fun _ => none) (fun sp => sp) = none := rfl

/-- Counterexample for C4: a cached thread with both the sleeping and
watchpoint bits classifies as TS_SLEEPING (not TS_WATCHPOINT), yet
get_wp_thread returns its id, while the spec-worded classified-state
lookup returns none. -/
theorem c4_counterexample_classified_vs_raw :
    get_wp_thread [⟨7, SLEEP_FLAG ||| WATCH_FLAG⟩] = 7
  ∧ toThreadState (SLEEP_FLAG ||| WATCH_FLAG) = ThreadState_t.TS_SLEEPING
  ∧ thread_at_watchpoint_spec [⟨7, SLEEP_FLAG ||| WATCH_FLAG⟩] = none := by
  refine ⟨by decide, by decide, by decide⟩

/-- C4 (amended): get_wp_thread scans the cached snapshot and returns
the id of the first thread whose raw flags include the watchpoint bit
(regardless of the classified state); it returns the -1 none-sentinel
when the cache is empty or no thread has the bit. -/
theorem c4_amended_raw_watch_bit_scan :
    get_wp_thread [] = -1
  ∧ (∀ ts : List db_thread, (∀ t ∈ ts, t.flags &&& WATCH_FLAG = 0) →
      get_wp_thread ts = -1)
  ∧ (∀ (ahead : List db_thread) (t : db_thread) (rest : List db_thread),
      (∀ u ∈ ahead, u.flags &&& WATCH_FLAG = 0) → t.flags &&& WATCH_FLAG ≠ 0 →
      get_wp_thread (ahead ++ t :: rest) = t.id) := by
  refine ⟨rfl, fun ts h => get_wp_thread_of_no_watch h, ?_⟩
  intro ahead t rest hpre ht
  induction ahead with
  | nil => simp [get_wp_thread, is_th_state, is_state, ht]
  | cons u us ih =>
    have hu : u.flags &&& WATCH_FLAG = 0 := hpre u (by simp)
    have hu' : is_th_state u WATCH_FLAG = false := by
      simp [is_th_state, is_state, hu]
    rw [List.cons_append, get_wp_thread, hu']
    simp only [Bool.false_eq_true, if_false]
    exact ih (fun v hv => hpre v (by simp [hv]))

/-- Witness for C4 (amended): a cache whose first watch-bit thread sits
behind a runnable thread yields that thread's id. -/
theorem c4_amended_raw_watch_bit_scan_witness :
    get_wp_thread ([⟨1, RUNNABLE_FLAG⟩] ++ ⟨9, WATCH_FLAG⟩ :: [⟨4, WATCH_FLAG⟩]) = 9 :=
  c4_amended_raw_watch_bit_scan.2.2 [⟨1, RUNNABLE_FLAG⟩] ⟨9, WATCH_FLAG⟩
    [⟨4, WATCH_FLAG⟩] (by decide) (by decide)

/-- C10: with no cached thread carrying the watchpoint bit (including
an empty cache), both watchpoint readers return 0 without querying the
collaborator; and the success path can also return 0 (a genuine zero
address, or a raw kind equal to the after flag), so 0 is an in-band
sentinel. -/
theorem c10_zero_sentinel :
    (∀ (cache : List db_thread) (info : Int → Int × Nat),
      (∀ t ∈ cache, t.flags &&& WATCH_FLAG = 0) →
      nativeReadWatchpointAddress cache info = (0, [])
      ∧ nativeReadWatchpointAccessCode cache info = (0, []))
  ∧ nativeReadWatchpointAddress [⟨1, WATCH_FLAG⟩] (fun _ => (0, 0)) = (0, [1])
  ∧ nativeReadWatchpointAccessCode [⟨1, WATCH_FLAG⟩] (fun _ => (0, AFTER_W)) = (0, [1]) := by
  refine ⟨?_, by decide, by decide⟩
  intro cache info h
  have hw := get_wp_thread_of_no_watch h
  constructor <;>
    simp [nativeReadWatchpointAddress, nativeReadWatchpointAccessCode, hw]

/-- Witness for C10: a cache holding only a runnable thread makes both
readers return 0 with no collaborator query. -/
theorem c10_zero_sentinel_witness :
    nativeReadWatchpointAddress [⟨2, RUNNABLE_FLAG⟩] (fun _ => (5, 3)) = (0, [])
  ∧ nativeReadWatchpointAccessCode [⟨2, RUNNABLE_FLAG⟩] (fun _ => (5, 3)) = (0, []) :=
  c10_zero_sentinel.1 [⟨2, RUNNABLE_FLAG⟩] (fun _ => (5, 3)) (by decide)

/-- C6: nativeReadWatchpointAccessCode never has the after bit set in
its result, whatever raw kind the collaborator reports, and on the
found-thread path it returns exactly the raw kind with the after bit
masked off. -/
theorem c6_access_code_strips_after_flag :
    (∀ (cache : List db_thread) (info : Int → Int × Nat),
      (nativeReadWatchpointAccessCode cache info).1 &&& AFTER_W = 0)
  ∧ (∀ (cache : List db_thread) (info : Int → Int × Nat),
      ¬ get_wp_thread cache < 0 →
      nativeReadWatchpointAccessCode cache info =
        ((info (get_wp_thread cache)).2 &&& AFTER_W_complement,
         [get_wp_thread cache])) := by
  constructor
  · intro cache info
    unfold nativeReadWatchpointAccessCode
    by_cases h : get_wp_thread cache < 0 <;>
      simp [h, land_AFTER_W_complement_strips]
  · intro cache info h
    simp [nativeReadWatchpointAccessCode, h]

/-- Witness for C6: a cached watchpoint thread with raw kind 3
(after|read) yields 2 (read only). -/
theorem c6_access_code_strips_after_flag_witness :
    nativeReadWatchpointAccessCode [⟨3, WATCH_FLAG⟩] (fun _ => (0, 3)) = (2, [3]) := by
  have h := c6_access_code_strips_after_flag.2 [⟨3, WATCH_FLAG⟩] (fun _ => (0, 3))
    (by decide)
  simpa using h

/-- Counterexample for C3: an output capacity strictly smaller than the
canonical integer region (0 < 128) is accepted: the call succeeds and
performs three truncated writes, instead of failing with
buffer-too-small before any write. -/
theorem c3_counterexample_small_buffer_accepted :
    0 < sizeof_canonicalIntegerRegisters
  ∧ nativeReadRegisters 0 0 0 (some ⟨0, 0⟩) =
      (true, [(RegBuf.integer, 0), (RegBuf.state, 0), (RegBuf.fp, 0)]) :=
  ⟨by decide, by decide⟩

/-- C3 (amended): nativeReadRegisters fails fast, writing to no buffer,
when any declared capacity is LARGER than its canonical region (and
when the register block is null); otherwise it succeeds and writes each
buffer with exactly its declared capacity bytes, a prefix of the
region, so capacities smaller than the regions are accepted. -/
theorem c3_amended_large_buffer_rejected :
    (∀ (li lf ls : Nat) (regs : Option db_regs),
      (sizeof_canonicalIntegerRegisters < li ∨ sizeof_canonicalStateRegisters < ls
        ∨ sizeof_canonicalFloatingPointRegisters < lf) →
      nativeReadRegisters li lf ls regs = (false, []))
  ∧ (∀ li lf ls : Nat, li ≤ sizeof_canonicalIntegerRegisters →
      ls ≤ sizeof_canonicalStateRegisters →
      lf ≤ sizeof_canonicalFloatingPointRegisters →
      nativeReadRegisters li lf ls none = (false, []))
  ∧ (∀ (li lf ls : Nat) (r : db_regs), li ≤ sizeof_canonicalIntegerRegisters →
      ls ≤ sizeof_canonicalStateRegisters →
      lf ≤ sizeof_canonicalFloatingPointRegisters →
      nativeReadRegisters li lf ls (some r) =
        (true, [(RegBuf.integer, li), (RegBuf.state, ls), (RegBuf.fp, lf)])) := by
  refine ⟨?_, ?_, ?_⟩
  · intro li lf ls regs h
    unfold nativeReadRegisters
    by_cases h1 : sizeof_canonicalIntegerRegisters < li
    · simp [h1]
    · by_cases h2 : sizeof_canonicalStateRegisters < ls
      · simp [h1, h2]
      · by_cases h3 : sizeof_canonicalFloatingPointRegisters < lf
        · simp [h1, h2, h3]
        · exact absurd h (by omega)
  · intro li lf ls h1 h2 h3
    simp [nativeReadRegisters, Nat.not_lt.mpr h1, Nat.not_lt.mpr h2, Nat.not_lt.mpr h3]
  · intro li lf ls r h1 h2 h3
    simp [nativeReadRegisters, Nat.not_lt.mpr h1, Nat.not_lt.mpr h2, Nat.not_lt.mpr h3]

/-- Witness for C3 (amended): exactly-sized buffers succeed with three
full writes, and an oversized integer buffer is rejected with none. -/
theorem c3_amended_large_buffer_rejected_witness :
    nativeReadRegisters 128 128 24 (some ⟨0, 0⟩) =
      (true, [(RegBuf.integer, 128), (RegBuf.state, 24), (RegBuf.fp, 128)])
  ∧ nativeReadRegisters 129 0 0 none = (false, []) :=
  ⟨c3_amended_large_buffer_rejected.2.2 128 128 24 ⟨0, 0⟩ (by decide) (by decide) (by decide),
   c3_amended_large_buffer_rejected.1 129 0 0 none (Or.inl (by decide))⟩

/-- Helper: a polling loop that ends in the termination outcome has
issued the sign-off call. -/
theorem pollLoop_term_signoff (flag : Bool) (rounds : List Round) (evs : List Ev)
    (h : pollLoop flag rounds = some (PollOutcome.term, evs)) : Ev.signoff ∈ evs := by
  induction rounds generalizing flag evs with
  | nil =>
    unfold pollLoop at h
    by_cases hf : flag <;> simp [hf] at h
  | cons r rest ih =>
    unfold pollLoop at h
    by_cases hf : flag || r.ext
    · simp [hf] at h
    · simp only [hf, Bool.false_eq_true, if_false] at h
      cases hg : r.gathered with
      | none =>
        rw [hg] at h
        simp at h
        subst h
        simp
      | some threads =>
        rw [hg] at h
        dsimp only at h
        cases hp : pollLoop (threads.any (fun t => is_th_state t DEBUG_SUSPEND_FLAG)) rest with
        | none => rw [hp] at h; simp at h
        | some p =>
          obtain ⟨o, pevs⟩ := p
          rw [hp] at h
          simp at h
          obtain ⟨ho, he⟩ := h
          subst ho
          subst he
          exact List.mem_cons_of_mem _ (ih _ _ hp)

/-- C1: whenever nativeResume returns the termination signal (1), the
poll observed the collector reporting no threads; the sign-off call was
issued, the terminated flag is set, the cached snapshot remains
discarded (not replaced by a new one), and 1 is returned as a normal
outcome. -/
theorem c1_resume_termination_path (s : CoordState) (rounds : List Round)
    (finalGather : Option (List db_thread)) (s' : CoordState) (v : Nat) (evs : List Ev)
    (h : nativeResume s rounds finalGather = some (s', v, evs)) (hv : v = 1) :
    s'.terminated = true ∧ s'.threads_at_rest = none
      ∧ s'.suspend_all_request = false ∧ Ev.signoff ∈ evs := by
  unfold nativeResume at h
  cases hp : pollLoop s.suspend_all_request rounds with
  | none => rw [hp] at h; simp at h
  | some p =>
    obtain ⟨o, pevs⟩ := p
    cases o with
    | term =>
      rw [hp] at h
      simp at h
      obtain ⟨h1, h2, h3⟩ := h
      subst h1 h3
      exact ⟨rfl, rfl, rfl, List.mem_cons_of_mem _ (pollLoop_term_signoff _ _ _ hp)⟩
    | exit =>
      rw [hp] at h
      simp at h
      omega

/-- Witness for C1: a first poll that reports no threads makes resume
sign off, set terminated, leave the cache discarded and return 1. -/
theorem c1_resume_termination_path_witness :
    ({ terminated := true, threads_at_rest := none,
       suspend_all_request := false } : CoordState).terminated = true
  ∧ ({ terminated := true, threads_at_rest := none,
       suspend_all_request := false } : CoordState).threads_at_rest = none
  ∧ ({ terminated := true, threads_at_rest := none,
       suspend_all_request := false } : CoordState).suspend_all_request = false
  ∧ Ev.signoff ∈ [Ev.resumeAll, Ev.gather, Ev.signoff] :=
  c1_resume_termination_path ⟨false, some [⟨1, RUNNABLE_FLAG⟩], false⟩
    [⟨false, none⟩] none ⟨true, none, false⟩ 1
    [Ev.resumeAll, Ev.gather, Ev.signoff] (by decide) rfl

/-- C7: nativeSuspendAll only sets the suspend_all_request flag and
always returns true; a polling loop whose condition check sees the flag
set (whether left set or set externally just before the check) exits at
that very check, with no further collection. -/
theorem c7_suspend_request_prompt_exit :
    (∀ s : CoordState, nativeSuspendAll s =
      ({ terminated := s.terminated, threads_at_rest := s.threads_at_rest,
         suspend_all_request := true }, true))
  ∧ (∀ rounds : List Round, pollLoop true rounds = some (PollOutcome.exit, []))
  ∧ (∀ (g : Option (List db_thread)) (rest : List Round),
      pollLoop false ({ ext := true, gathered := g } :: rest) =
        some (PollOutcome.exit, [])) := by
  refine ⟨fun s => rfl, fun rounds => ?_, fun g rest => ?_⟩
  · cases rounds <;> simp [pollLoop]
  · simp [pollLoop]

/-- Counterexample for C8: with the terminated flag already set, resume
does not report termination; it releases the threads (resume-all),
polls, force-suspends and returns 0, issuing further target-control
calls. -/
theorem c8_counterexample_resume_ignores_terminated :
    nativeResume ⟨true, none, false⟩ [⟨false, some [⟨1, DEBUG_SUSPEND_FLAG⟩]⟩]
        (some []) =
      some (⟨true, some [], false⟩, 0,
        [Ev.resumeAll, Ev.gather, Ev.suspendAll, Ev.gather])
  ∧ Ev.resumeAll ∈ [Ev.resumeAll, Ev.gather, Ev.suspendAll, Ev.gather] :=
  ⟨by decide, by decide⟩

/-- C8 (amended): only the diagnostic gather_and_trace_threads consults
the terminated flag (returning with no target-control call when it is
set); nativeResume's return value and collaborator-call trace are
independent of the flag, and only a new connection's initialization
resets the state. -/
theorem c8_amended_only_gather_checks_terminated :
    (∀ s : CoordState, s.terminated = true → gather_and_trace_threads s = [])
  ∧ (∀ (s : CoordState) (rounds : List Round) (finalGather : Option (List db_thread)),
      (nativeResume s rounds finalGather).map (fun r => (r.2.1, r.2.2)) =
      (nativeResume { s with terminated := false } rounds finalGather).map
        (fun r => (r.2.1, r.2.2)))
  ∧ teleThreadLocalsInitialize.terminated = false := by
  refine ⟨?_, ?_, rfl⟩
  · intro s h
    simp [gather_and_trace_threads, h]
  · intro s rounds finalGather
    obtain ⟨t, c, f⟩ := s
    unfold nativeResume
    cases pollLoop f rounds with
    | none => rfl
    | some p =>
      obtain ⟨o, evs⟩ := p
      cases o <;> rfl

/-- Witness for C8 (amended): a terminated coordinator state makes the
diagnostic dump perform no collaborator call. -/
theorem c8_amended_only_gather_checks_terminated_witness :
    gather_and_trace_threads ⟨true, none, false⟩ = [] :=
  c8_amended_only_gather_checks_terminated.1 ⟨true, none, false⟩ rfl
